import Mathlib

/-!
Verification of the CBT-Chat conversation-safety behavior of the repository.

The development shallowly embeds, in Lean, the parts of the repository the
claims are about:

* the SQL triggers of `supabase/migrations` (`flag_session_on_risk_event`,
  `increment_session_message_count`, `create_risk_notification`) and the
  CHECK constraints of `mood_ratings` and `skill_completions`;
* the patient chat page `frontend/app/patient/chat/page.tsx`
  (the success and error continuations of `handleSend`, and the choice of
  input area rendered);
* the frontend API client `lib/api.ts` (`APIClient.sendMessage`);
* the risk-merge failure policy of the backend risk evaluator, which is
  absent from the source tree and is modelled from the specification.

Timestamps are modelled as natural numbers; UUIDs as natural-number ids.
-/

namespace CBTChat

/-- Risk levels, as in the `RiskLevel` enum of the frontend types and the
`risk_level` columns of the schema: none, low, medium, high. -/
inductive RiskLevel where
  | none
  | low
  | medium
  | high
deriving DecidableEq, Repr

/-- Severity rank of a risk level, ordering none < low < medium < high. -/
def RiskLevel.rank : RiskLevel → Nat
  | .none => 0
  | .low => 1
  | .medium => 2
  | .high => 3

/-- Session statuses, as in the `SessionStatus` enum of the frontend types
and the `sessions.status` column: active, completed, terminated, flagged. -/
inductive SessionStatus where
  | active
  | completed
  | terminated
  | flagged
deriving DecidableEq, Repr

/-- Alert levels of `risk_events.alert_level` (migration 002):
low, medium, high, critical. -/
inductive AlertLevel where
  | low
  | medium
  | high
  | critical
deriving DecidableEq, Repr

/-- Notification priorities of `notifications.priority`:
low, normal, high, critical. -/
inductive NotificationPriority where
  | low
  | normal
  | high
  | critical
deriving DecidableEq, Repr

/-- A row of the `sessions` table, restricted to the columns the claims
touch. -/
structure Session where
  id : Nat
  patient_id : Nat
  status : SessionStatus
  risk_level : RiskLevel
  risk_flagged : Bool
  risk_flagged_at : Option Nat
  total_messages : Nat
  updated_at : Nat
deriving DecidableEq, Repr

/-- A row of the `risk_events` table, restricted to the columns the claims
touch. -/
structure RiskEventRow where
  id : Nat
  session_id : Nat
  patient_id : Nat
  risk_level : RiskLevel
  risk_type : Option String
  full_message_content : String
  alert_level : AlertLevel
  therapist_notified : Bool
  therapist_notified_at : Option Nat
  notification_id : Option Nat
deriving DecidableEq, Repr

/-- The SET clause of the trigger function `flag_session_on_risk_event`
(migration 001): `risk_flagged = TRUE, risk_flagged_at = NOW(),
risk_level = NEW.risk_level, status = CASE WHEN NEW.risk_level = high
THEN flagged ELSE status END`.  The `BEFORE UPDATE` trigger
`update_sessions_updated_at` additionally refreshes `updated_at`. -/
def flagSet (now : Nat) (e : RiskEventRow) (s : Session) : Session :=
  { s with
    risk_flagged := true
    risk_flagged_at := some now
    risk_level := e.risk_level
    status := if e.risk_level = RiskLevel.high then SessionStatus.flagged else s.status
    updated_at := now }

/-- The whole trigger `flag_session_on_risk`: the UPDATE applies `flagSet`
to the sessions whose `id` equals `NEW.session_id`. -/
def flagSessionOnRiskEvent (now : Nat) (e : RiskEventRow) (sessions : List Session) :
    List Session :=
  sessions.map (fun s => if s.id = e.session_id then flagSet now e s else s)

/-- The risk event of each turn applied to a session row: one `(now, event)` pair per
turn, folded left to right. -/
def applyRiskEvents (s : Session) (es : List (Nat × RiskEventRow)) : Session :=
  es.foldl (fun acc p => flagSet p.1 p.2 acc) s

/-- A concrete session used in counterexamples: already at `risk_level`
high, status flagged. -/
def sessHigh : Session :=
  { id := 1, patient_id := 7, status := SessionStatus.flagged
    risk_level := RiskLevel.high, risk_flagged := true
    risk_flagged_at := some 5, total_messages := 4, updated_at := 5 }

/-- A concrete medium-level risk event for session 1. -/
def evMedium : RiskEventRow :=
  { id := 21, session_id := 1, patient_id := 7
    risk_level := RiskLevel.medium, risk_type := some "self_harm"
    full_message_content := "message text"
    alert_level := AlertLevel.high, therapist_notified := false
    therapist_notified_at := Option.none, notification_id := Option.none }

/-- A concrete high-level risk event for session 1. -/
def evHigh : RiskEventRow :=
  { id := 20, session_id := 1, patient_id := 7
    risk_level := RiskLevel.high, risk_type := some "self_harm"
    full_message_content := "I want to hurt myself"
    alert_level := AlertLevel.critical, therapist_notified := false
    therapist_notified_at := Option.none, notification_id := Option.none }

/-- A concrete active session with no risk recorded yet. -/
def sessActive : Session :=
  { id := 1, patient_id := 7, status := SessionStatus.active
    risk_level := RiskLevel.none, risk_flagged := false
    risk_flagged_at := Option.none, total_messages := 2, updated_at := 3 }

/-- A row of the `messages` table, restricted to the columns the claims
touch. -/
structure MessageRow where
  id : Nat
  session_id : Nat
  role : String
  content : String
deriving DecidableEq, Repr

/-- The SET clause of the trigger function
`increment_session_message_count` (migration 001):
`total_messages = total_messages + 1, updated_at = NOW()`. -/
def bumpMessageCount (now : Nat) (s : Session) : Session :=
  { s with total_messages := s.total_messages + 1, updated_at := now }

/-- The trigger `increment_message_count`, fired AFTER INSERT on
`messages`: the UPDATE applies `bumpMessageCount` to the sessions whose
`id` equals `NEW.session_id`. -/
def incrementSessionMessageCount (now : Nat) (m : MessageRow)
    (sessions : List Session) : List Session :=
  sessions.map (fun s => if s.id = m.session_id then bumpMessageCount now s else s)

/-- A second concrete session, distinct from `sessActive`, for frame
witnesses. -/
def sessOther : Session :=
  { id := 2, patient_id := 9, status := SessionStatus.active
    risk_level := RiskLevel.none, risk_flagged := false
    risk_flagged_at := Option.none, total_messages := 5, updated_at := 3 }

/-- A concrete message row inserted into session 1. -/
def msgRow : MessageRow :=
  { id := 31, session_id := 1, role := "user", content := "hello" }

/-- A row of the `therapist_patients` table, restricted to the columns the
claims touch. -/
structure TherapistPatientRow where
  id : Nat
  therapist_id : Nat
  patient_id : Nat
  is_active : Bool
deriving DecidableEq, Repr

/-- A row of the `patients` table, restricted to the columns the claims
touch.  The nullable `preferred_name` column is modelled as a plain string
(the notification trigger concatenates it into the subject line). -/
structure PatientRow where
  id : Nat
  preferred_name : String
deriving DecidableEq, Repr

/-- A row of the `notifications` table (migration 002), restricted to the
columns the claims touch. -/
structure NotificationRow where
  id : Nat
  therapist_id : Nat
  notification_type : String
  priority : NotificationPriority
  patient_id : Option Nat
  session_id : Option Nat
  risk_event_id : Option Nat
  subject : String
  message_body : String
deriving DecidableEq, Repr

/-- The lowercase text of an alert level, as stored in the
`risk_events.alert_level` VARCHAR column. -/
def AlertLevel.text : AlertLevel → String
  | .low => "low"
  | .medium => "medium"
  | .high => "high"
  | .critical => "critical"

/-- `UPPER(NEW.alert_level)` as used in the notification subject. -/
def AlertLevel.upper : AlertLevel → String
  | .low => "LOW"
  | .medium => "MEDIUM"
  | .high => "HIGH"
  | .critical => "CRITICAL"

/-- The SELECT of `create_risk_notification`:
`SELECT tp.therapist_id, p.preferred_name FROM therapist_patients tp JOIN
patients p ON p.id = tp.patient_id WHERE tp.patient_id = NEW.patient_id
AND tp.is_active = TRUE LIMIT 1`.  `LIMIT 1` without ORDER BY is modelled
as the first matching row. -/
def findAssignment (tps : List TherapistPatientRow) (pats : List PatientRow)
    (pid : Nat) : Option (Nat × String) :=
  (tps.find? (fun tp => (tp.patient_id == pid) && tp.is_active)).bind
    (fun tp => (pats.find? (fun p => p.id == pid)).map
      (fun p => (tp.therapist_id, p.preferred_name)))

/-- The notification row built by the INSERT of `create_risk_notification`
(migration 002): type `risk_alert`, priority critical when the alert level
is critical and high otherwise, subject and body concatenated from the
event and the name of the patient. -/
def mkRiskNotification (nid : Nat) (e : RiskEventRow) (tid : Nat)
    (name : String) : NotificationRow :=
  { id := nid
    therapist_id := tid
    notification_type := "risk_alert"
    priority := if e.alert_level = AlertLevel.critical
      then NotificationPriority.critical else NotificationPriority.high
    patient_id := some e.patient_id
    session_id := some e.session_id
    risk_event_id := some e.id
    subject := "🚨 " ++ e.alert_level.upper ++ " Risk Alert - " ++ name
    message_body :=
      "A " ++ e.alert_level.text ++ " risk event was detected for " ++
      name ++ ".\n\n" ++
      "Risk Type: " ++ e.risk_type.getD "Unknown" ++ "\n" ++
      "Message: " ++ e.full_message_content.take 200 ++ "\n\n" ++
      "Please review this event in your dashboard immediately." }

/-- The UPDATE of `create_risk_notification` on the inserted risk event:
`notification_id = v_notification_id, therapist_notified = TRUE,
therapist_notified_at = NOW() WHERE id = NEW.id`. -/
def markNotified (now nid : Nat) (eid : Nat) (res : List RiskEventRow) :
    List RiskEventRow :=
  res.map (fun r => if r.id = eid then
    { r with notification_id := some nid
             therapist_notified := true
             therapist_notified_at := some now } else r)

/-- The trigger function `create_risk_notification` (migration 002), fired
AFTER INSERT on `risk_events`: for a high or critical alert with an active
assigned therapist, inserts one `risk_alert` notification with fresh id
`nid` and marks the inserted risk event therapist-notified with the id of that
notification; otherwise changes nothing.  Returns the updated
`(notifications, risk_events)` tables. -/
def createRiskNotification (now nid : Nat) (tps : List TherapistPatientRow)
    (pats : List PatientRow) (e : RiskEventRow)
    (notifs : List NotificationRow) (res : List RiskEventRow) :
    List NotificationRow × List RiskEventRow :=
  if e.alert_level = AlertLevel.high ∨ e.alert_level = AlertLevel.critical then
    match findAssignment tps pats e.patient_id with
    | some (tid, name) =>
      (notifs ++ [mkRiskNotification nid e tid name], markNotified now nid e.id res)
    | Option.none => (notifs, res)
  else (notifs, res)

/-- A concrete active therapist assignment for patient 7. -/
def tpActive : TherapistPatientRow :=
  { id := 51, therapist_id := 3, patient_id := 7, is_active := true }

/-- A concrete patient row for patient 7. -/
def patAlex : PatientRow :=
  { id := 7, preferred_name := "Alex" }

/-- A concrete risk event with alert level low for the no-notification
case. -/
def evLowAlert : RiskEventRow :=
  { id := 22, session_id := 1, patient_id := 7
    risk_level := RiskLevel.low, risk_type := Option.none
    full_message_content := "mild message"
    alert_level := AlertLevel.low, therapist_notified := false
    therapist_notified_at := Option.none, notification_id := Option.none }

/-- A row of the `mood_ratings` table, restricted to the columns the
claims touch.  `mood_score` is an SQL INTEGER, modelled as an integer. -/
structure MoodRatingRow where
  id : Nat
  patient_id : Nat
  session_id : Option Nat
  mood_score : Int
  mood_label : Option String
deriving DecidableEq, Repr

/-- Insert into `mood_ratings`: the schema constraint
`CHECK (mood_score >= 0 AND mood_score <= 10)` refuses out-of-range rows;
an accepted row is stored as given. -/
def insertMoodRating (tbl : List MoodRatingRow) (r : MoodRatingRow) :
    Option (List MoodRatingRow) :=
  if 0 ≤ r.mood_score ∧ r.mood_score ≤ 10 then some (tbl ++ [r]) else Option.none

/-- A row of the `skill_completions` table, restricted to the columns the
claims touch.  `data` (a NOT NULL JSONB payload) is modelled as a string;
`mood_before` and `mood_after` are nullable SQL INTEGER columns. -/
structure SkillCompletionRow where
  id : Nat
  session_id : Nat
  patient_id : Nat
  skill_type : String
  data : String
  mood_before : Option Int
  mood_after : Option Int
  completion_status : String
deriving DecidableEq, Repr

/-- Insert into `skill_completions`: the schema declares no CHECK
constraint on `mood_before` or `mood_after` (the 0-10 range appears only
in a comment), so every row is accepted and stored as given. -/
def insertSkillCompletion (tbl : List SkillCompletionRow)
    (c : SkillCompletionRow) : Option (List SkillCompletionRow) :=
  some (tbl ++ [c])

/-- A concrete skill-completion row with an out-of-range `mood_before`. -/
def skillOutOfRange : SkillCompletionRow :=
  { id := 41, session_id := 1, patient_id := 7
    skill_type := "thought_record", data := "\x7b\x7d"
    mood_before := some 11, mood_after := some 3
    completion_status := "completed" }

/-- A concrete in-range mood rating. -/
def moodSeven : MoodRatingRow :=
  { id := 61, patient_id := 7, session_id := some 1
    mood_score := 7, mood_label := Option.none }

/-- Distress levels, as in the `DistressLevel` enum of the frontend
types: none, mild, moderate, severe, crisis. -/
inductive DistressLevel where
  | none
  | mild
  | moderate
  | severe
  | crisis
deriving DecidableEq, Repr

/-- A chat message as held in the `messages` state of the chat page, restricted
to the fields the claims touch (`created_at` and the risk metadata are
omitted). -/
structure UIMessage where
  id : String
  role : String
  content : String
  distress_level : Option DistressLevel
  is_grounding_exercise : Option Bool
  is_disclaimer : Option Bool
deriving DecidableEq, Repr

/-- The `ChatResponse` payload of the message endpoint (frontend types),
restricted to the fields that `handleSend` of the chat page reads.  `resources`
is the optional crisis-resources mapping. -/
structure ChatResponse where
  session_id : Nat
  message : UIMessage
  risk_detected : Bool
  risk_level : RiskLevel
  should_end_session : Bool
  resources : Option (List (String × String))
  distress_level : Option DistressLevel
  grounding_offered : Option Bool
  disclaimer_shown : Option Bool
deriving DecidableEq, Repr

/-- The React state of `ChatPage` (`frontend/app/patient/chat/page.tsx`):
one field per `useState` hook the claims touch. -/
structure ChatState where
  messages : List UIMessage
  input : String
  loading : Bool
  sessionId : Option Nat
  country : String
  sessionEnded : Bool
  crisisResources : Option (List (String × String))
  currentDistress : DistressLevel
  showSupportBanner : Bool
deriving DecidableEq, Repr

/-- The optimistic user message appended by `handleSend` before the API
call (`tempUserMsg`). -/
def mkUserMsg (mid content : String) : UIMessage :=
  { id := mid, role := "user", content := content
    distress_level := Option.none, is_grounding_exercise := Option.none
    is_disclaimer := Option.none }

/-- The pre-call phase of `handleSend`: clears the input, sets
`loading`, and appends the optimistic user message. -/
def appendUserMsg (st : ChatState) (mid userMessage : String) : ChatState :=
  { st with input := ""
            loading := true
            messages := st.messages ++ [mkUserMsg mid userMessage] }

/-- The last-message update on the success path of `handleSend`: the
`distress_level` of the just-sent user message becomes
`response.distress_level ??` its previous value. -/
def updateLastDistress (d : Option DistressLevel) :
    List UIMessage → List UIMessage
  | [] => []
  | [m] => [{ m with distress_level := match d with
                | some x => some x
                | Option.none => m.distress_level }]
  | m :: m2 :: rest => m :: updateLastDistress d (m2 :: rest)

/-- The success continuation of `handleSend` (the `try` body after the
`await`): records the session id on the first turn, appends the enhanced
assistant message, updates the current distress, shows the support banner
and ends the session on a detected high risk with resources, ends the
session when `should_end_session` is set, and (in `finally`) clears
`loading`. -/
def handleSendSuccess (st : ChatState) (r : ChatResponse) : ChatState :=
  let st1 := if st.sessionId.isNone then { st with sessionId := some r.session_id } else st
  let enhanced : UIMessage :=
    { r.message with distress_level := r.distress_level
                     is_grounding_exercise := r.grounding_offered
                     is_disclaimer := r.disclaimer_shown }
  let st2 := { st1 with
    messages := updateLastDistress r.distress_level st1.messages ++ [enhanced]
    currentDistress := r.distress_level.getD st1.currentDistress }
  let st3 :=
    if r.risk_detected && r.resources.isSome then
      let stA := { st2 with crisisResources := r.resources, showSupportBanner := true }
      if r.risk_level = RiskLevel.high then { stA with sessionEnded := true } else stA
    else st2
  let st4 := if r.should_end_session then { st3 with sessionEnded := true } else st3
  { st4 with loading := false }

/-- The error message appended by the catch block of `handleSend`:
`Sorry, there was an error: <error.message or Unknown error>. Please try
again.` -/
def mkErrorMsg (eid : String) (errMessage : Option String) : UIMessage :=
  { id := eid, role := "assistant"
    content := "Sorry, there was an error: " ++ errMessage.getD "Unknown error" ++
      ". Please try again."
    distress_level := Option.none, is_grounding_exercise := Option.none
    is_disclaimer := Option.none }

/-- The error continuation of `handleSend` (the `catch` block plus the
`finally`): appends the apologetic message and clears `loading`; no other
state hook is set. -/
def handleSendError (st : ChatState) (eid : String) (errMessage : Option String) :
    ChatState :=
  { st with messages := st.messages ++ [mkErrorMsg eid errMessage]
            loading := false }

/-- A full `handleSend` turn whose API call succeeds. -/
def handleSendOk (st : ChatState) (mid userMessage : String) (r : ChatResponse) :
    ChatState :=
  handleSendSuccess (appendUserMsg st mid userMessage) r

/-- A full `handleSend` turn whose API call throws. -/
def handleSendErr (st : ChatState) (mid userMessage eid : String)
    (errMessage : Option String) : ChatState :=
  handleSendError (appendUserMsg st mid userMessage) eid errMessage

/-- What the bottom input area of `ChatPage` renders: the session-ended
notice, or the textarea with the Send button. -/
inductive InputArea where
  | endedNotice
  | messageBox
deriving DecidableEq, Repr

/-- The input-area branch of the `ChatPage` JSX: the session-ended notice
replaces the message box exactly when `sessionEnded` is set. -/
def renderInputArea (st : ChatState) : InputArea :=
  if st.sessionEnded then InputArea.endedNotice else InputArea.messageBox

/-- A fresh chat state as mounted for a new session. -/
def stFresh : ChatState :=
  { messages := [], input := "hi", loading := false, sessionId := Option.none
    country := "it", sessionEnded := false, crisisResources := Option.none
    currentDistress := DistressLevel.none, showSupportBanner := false }

/-- A concrete assistant message. -/
def msgAssist : UIMessage :=
  { id := "2", role := "assistant", content := "reply"
    distress_level := Option.none, is_grounding_exercise := Option.none
    is_disclaimer := Option.none }

/-- A response carrying risk level high and crisis resources but with
`risk_detected` false. -/
def respHighNoDetect : ChatResponse :=
  { session_id := 1, message := msgAssist, risk_detected := false
    risk_level := RiskLevel.high, should_end_session := false
    resources := some [("hotline", "988")], distress_level := Option.none
    grounding_offered := Option.none, disclaimer_shown := Option.none }

/-- A response carrying a detected high risk with crisis resources. -/
def respHighDetected : ChatResponse :=
  { session_id := 1, message := msgAssist, risk_detected := true
    risk_level := RiskLevel.high, should_end_session := true
    resources := some [("hotline", "988")], distress_level := some DistressLevel.crisis
    grounding_offered := Option.none, disclaimer_shown := Option.none }

/-- The request body posted by `APIClient.sendMessage` to
`/api/chat/message`: exactly `patient_access_code`, `message` and
`session_id`. -/
structure SendMessageBody where
  patient_access_code : String
  message : String
  session_id : Option Nat
deriving DecidableEq, Repr

/-- `APIClient.sendMessage(accessCode, message, sessionId)` builds its
POST body from its three parameters. -/
def sendMessageBody (accessCode message : String) (sessionId : Option Nat) :
    SendMessageBody :=
  { patient_access_code := accessCode, message := message, session_id := sessionId }

/-- The call made by the chat page,
`apiClient.sendMessage(accessCode, userMessage, sessionId || undefined,
country)`: `sendMessage` declares only three parameters, so the fourth
argument `country` is dropped and the posted body is built from the first
three. -/
def pageSendRequest (accessCode userMessage : String) (sessionId : Option Nat)
    (country : String) : SendMessageBody :=
  sendMessageBody accessCode userMessage sessionId

/-- Modelled from the spec: the backend risk evaluator
(`backend/services/risk_detector.py`) is not in the source tree.  Per
§4.4, the merged verdict takes the maximum severity across the keyword
and classifier tiers, never averaged. -/
def maxRiskLevel (a b : RiskLevel) : RiskLevel :=
  if a.rank ≤ b.rank then b else a

/-- Modelled from the spec: the backend risk evaluator
(`backend/services/risk_detector.py`) is not in the source tree.  Per
§4.3, a failed or timed-out classifier call (here `Option.none`) does not
default to none: it defaults to at least medium for the turn, and the
merged level is the maximum of the keyword tier and that default. -/
def mergeRiskLevel (keyword : RiskLevel) (classifier : Option RiskLevel) :
    RiskLevel :=
  match classifier with
  | some l => maxRiskLevel keyword l
  | Option.none => maxRiskLevel keyword RiskLevel.medium

end CBTChat

open CBTChat

/-- C1, as stated, is false on the code: the trigger
`flag_session_on_risk_event` overwrites `sessions.risk_level` with
`NEW.risk_level` instead of taking a maximum.  A session already at level
high that receives a medium risk event ends at level medium — the persisted
level decreased. -/
theorem flag_session_risk_level_can_decrease :
    (flagSet 6 evMedium sessHigh).risk_level = RiskLevel.medium ∧
    (flagSet 6 evMedium sessHigh).risk_level.rank < sessHigh.risk_level.rank := by
  constructor
  · rfl
  · decide

/-- After any nonempty sequence of risk events, the `risk_level` of the
session is the level of the last event applied. -/
theorem applyRiskEvents_last_level (es : List (Nat × RiskEventRow)) :
    ∀ (s : Session) (h : es ≠ []),
      (applyRiskEvents s es).risk_level = (es.getLast h).2.risk_level := by
  induction es with
  | nil => intro s h; exact absurd rfl h
  | cons a t ih =>
    intro s h
    cases t with
    | nil => rfl
    | cons b t2 =>
      simpa [applyRiskEvents, List.getLast] using ih (flagSet a.1 a.2 s) (by simp)

/-- C1 (amended): every risk-event insert sets the persisted session
`risk_level` to the level of the new event — an overwrite, not a maximum —
so after any nonempty sequence of risk events the session `risk_level`
equals the level of the last event applied, and it is not monotonic. -/
theorem risk_level_overwritten_each_event (s : Session) (now : Nat)
    (e : RiskEventRow) (es : List (Nat × RiskEventRow)) (h : es ≠ []) :
    (flagSet now e s).risk_level = e.risk_level ∧
    (applyRiskEvents s es).risk_level = (es.getLast h).2.risk_level :=
  ⟨rfl, applyRiskEvents_last_level es s h⟩

/-- Witness for `risk_level_overwritten_each_event` at a concrete session
and event sequence. -/
theorem risk_level_overwritten_each_event_witness :
    (flagSet 6 evMedium sessActive).risk_level = evMedium.risk_level ∧
    (applyRiskEvents sessActive [(4, evHigh), (6, evMedium)]).risk_level =
      evMedium.risk_level :=
  risk_level_overwritten_each_event sessActive 6 evMedium
    [(4, evHigh), (6, evMedium)] (by simp)

/-- C2, as stated, is false on the code: when a high-level risk event is
recorded, the trigger sets the session status to `flagged`, not
`terminated`. -/
theorem high_risk_sets_flagged_not_terminated :
    (flagSet 4 evHigh sessActive).status = SessionStatus.flagged ∧
    (flagSet 4 evHigh sessActive).status ≠ SessionStatus.terminated := by
  constructor
  · rfl
  · decide

/-- C2 (amended): for every session in which a high-level risk event is
recorded, the trigger sets the session status to `flagged`, which is
distinguishable downstream from normal completion (`completed`) and from
`active`. -/
theorem high_risk_event_flags_session (s : Session) (now : Nat)
    (e : RiskEventRow) (h : e.risk_level = RiskLevel.high) :
    (flagSet now e s).status = SessionStatus.flagged ∧
    SessionStatus.flagged ≠ SessionStatus.completed ∧
    SessionStatus.flagged ≠ SessionStatus.active := by
  refine ⟨?_, by decide, by decide⟩
  simp [flagSet, h]

/-- Witness for `high_risk_event_flags_session` at a concrete session and
event. -/
theorem high_risk_event_flags_session_witness :
    (flagSet 4 evHigh sessActive).status = SessionStatus.flagged ∧
    SessionStatus.flagged ≠ SessionStatus.completed ∧
    SessionStatus.flagged ≠ SessionStatus.active :=
  high_risk_event_flags_session sessActive 4 evHigh rfl

/-- C4: for every medium-level risk event, the session is not terminated:
the trigger leaves `status` (and the identity and message-count columns)
unchanged and only updates the risk flags (`risk_flagged`,
`risk_flagged_at`, `risk_level`) and the bookkeeping `updated_at`; in
particular an active session remains active. -/
theorem medium_risk_event_keeps_status (s : Session) (now : Nat)
    (e : RiskEventRow) (h : e.risk_level = RiskLevel.medium) :
    (flagSet now e s).status = s.status ∧
    (flagSet now e s).id = s.id ∧
    (flagSet now e s).patient_id = s.patient_id ∧
    (flagSet now e s).total_messages = s.total_messages ∧
    (flagSet now e s).risk_flagged = true ∧
    (flagSet now e s).risk_flagged_at = some now ∧
    (flagSet now e s).risk_level = e.risk_level ∧
    (s.status = SessionStatus.active →
      (flagSet now e s).status = SessionStatus.active) := by
  refine ⟨?_, rfl, rfl, rfl, rfl, rfl, rfl, ?_⟩
  · simp [flagSet, h]
  · intro ha
    simp [flagSet, h, ha]

/-- Witness for `medium_risk_event_keeps_status` at a concrete active
session and medium event. -/
theorem medium_risk_event_keeps_status_witness :
    (flagSet 6 evMedium sessActive).status = sessActive.status ∧
    (flagSet 6 evMedium sessActive).id = sessActive.id ∧
    (flagSet 6 evMedium sessActive).patient_id = sessActive.patient_id ∧
    (flagSet 6 evMedium sessActive).total_messages = sessActive.total_messages ∧
    (flagSet 6 evMedium sessActive).risk_flagged = true ∧
    (flagSet 6 evMedium sessActive).risk_flagged_at = some 6 ∧
    (flagSet 6 evMedium sessActive).risk_level = evMedium.risk_level ∧
    (sessActive.status = SessionStatus.active →
      (flagSet 6 evMedium sessActive).status = SessionStatus.active) :=
  medium_risk_event_keeps_status sessActive 6 evMedium rfl

/-- C9: inserting a row into `messages` increments `total_messages` by
exactly 1 (refreshing `updated_at`) on exactly the one session identified
by the `session_id` of the new row, and leaves every other session row
unchanged. -/
theorem increment_message_count_frame (sessions : List Session)
    (m : MessageRow) (now : Nat) (s : Session) (hmem : s ∈ sessions)
    (hid : s.id = m.session_id) (hnodup : (sessions.map Session.id).Nodup) :
    (incrementSessionMessageCount now m sessions).length = sessions.length ∧
    (∀ i : Nat, (incrementSessionMessageCount now m sessions)[i]? =
      (sessions[i]?).map
        (fun t => if t.id = m.session_id then bumpMessageCount now t else t)) ∧
    bumpMessageCount now s ∈ incrementSessionMessageCount now m sessions ∧
    (∀ t ∈ sessions, t.id ≠ m.session_id →
      t ∈ incrementSessionMessageCount now m sessions) ∧
    (∀ t ∈ sessions, t.id = m.session_id → t = s) := by
  refine ⟨?_, ?_, ?_, ?_, ?_⟩
  · simp [incrementSessionMessageCount]
  · intro i
    simp [incrementSessionMessageCount]
  · have : (fun t => if t.id = m.session_id then bumpMessageCount now t else t) s =
        bumpMessageCount now s := by simp [hid]
    exact this ▸ List.mem_map_of_mem _ hmem
  · intro t ht hne
    have : (fun u => if u.id = m.session_id then bumpMessageCount now u else u) t = t := by
      simp [hne]
    exact this ▸ List.mem_map_of_mem _ ht
  · intro t ht hteq
    exact List.inj_on_of_nodup_map hnodup ht hmem (hteq.trans hid.symm)

/-- Witness for `increment_message_count_frame` on a concrete two-session
store and message. -/
theorem increment_message_count_frame_witness :
    (incrementSessionMessageCount 9 msgRow [sessActive, sessOther]).length =
      [sessActive, sessOther].length ∧
    (∀ i : Nat, (incrementSessionMessageCount 9 msgRow [sessActive, sessOther])[i]? =
      ([sessActive, sessOther][i]?).map
        (fun t => if t.id = msgRow.session_id then bumpMessageCount 9 t else t)) ∧
    bumpMessageCount 9 sessActive ∈
      incrementSessionMessageCount 9 msgRow [sessActive, sessOther] ∧
    (∀ t ∈ [sessActive, sessOther], t.id ≠ msgRow.session_id →
      t ∈ incrementSessionMessageCount 9 msgRow [sessActive, sessOther]) ∧
    (∀ t ∈ [sessActive, sessOther], t.id = msgRow.session_id → t = sessActive) :=
  increment_message_count_frame [sessActive, sessOther] msgRow 9 sessActive
    (by decide) (by decide) (by decide)

/-- C10: a risk event with alert level high or critical that has an active
assigned therapist (and an existing patient row) creates exactly one
notification of type `risk_alert` — priority critical when the alert is
critical, high otherwise — and marks the risk event therapist-notified
with the id of the notification; a lower alert level, or the absence of an
active assigned therapist, creates no notification and leaves the risk
event untouched. -/
theorem create_risk_notification_spec (tps : List TherapistPatientRow)
    (pats : List PatientRow) (e : RiskEventRow)
    (notifs : List NotificationRow) (res : List RiskEventRow)
    (now nid : Nat) :
    ((e.alert_level = AlertLevel.high ∨ e.alert_level = AlertLevel.critical) →
      ∀ tid name, findAssignment tps pats e.patient_id = some (tid, name) →
        createRiskNotification now nid tps pats e notifs res =
          (notifs ++ [mkRiskNotification nid e tid name],
           markNotified now nid e.id res) ∧
        (mkRiskNotification nid e tid name).id = nid ∧
        (mkRiskNotification nid e tid name).therapist_id = tid ∧
        (mkRiskNotification nid e tid name).notification_type = "risk_alert" ∧
        (mkRiskNotification nid e tid name).priority =
          (if e.alert_level = AlertLevel.critical
            then NotificationPriority.critical else NotificationPriority.high) ∧
        (mkRiskNotification nid e tid name).risk_event_id = some e.id ∧
        (∀ r ∈ res, r.id = e.id →
          { r with notification_id := some nid
                   therapist_notified := true
                   therapist_notified_at := some now } ∈
            markNotified now nid e.id res)) ∧
    (e.alert_level ≠ AlertLevel.high → e.alert_level ≠ AlertLevel.critical →
      createRiskNotification now nid tps pats e notifs res = (notifs, res)) ∧
    (findAssignment tps pats e.patient_id = Option.none →
      createRiskNotification now nid tps pats e notifs res = (notifs, res)) := by
  refine ⟨?_, ?_, ?_⟩
  · intro halert tid name hfind
    refine ⟨?_, rfl, rfl, rfl, rfl, rfl, ?_⟩
    · simp [createRiskNotification, halert, hfind]
    · intro r hr hrid
      have : (fun u => if u.id = e.id then
          { u with notification_id := some nid
                   therapist_notified := true
                   therapist_notified_at := some now } else u) r =
          { r with notification_id := some nid
                   therapist_notified := true
                   therapist_notified_at := some now } := by
        simp [hrid]
      exact this ▸ List.mem_map_of_mem _ hr
  · intro h1 h2
    simp [createRiskNotification, h1, h2]
  · intro hfind
    by_cases halert : e.alert_level = AlertLevel.high ∨ e.alert_level = AlertLevel.critical
    · simp [createRiskNotification, halert, hfind]
    · simp [createRiskNotification, halert]

/-- An active assigned therapist exists exactly when `findAssignment`
finds one, given the patient row exists. -/
theorem findAssignment_isSome (tps : List TherapistPatientRow)
    (pats : List PatientRow) (pid : Nat)
    (hpat : ∃ p ∈ pats, p.id = pid)
    (htp : ∃ tp ∈ tps, tp.patient_id = pid ∧ tp.is_active = true) :
    (findAssignment tps pats pid).isSome = true := by
  obtain ⟨p, hpmem, hpid⟩ := hpat
  obtain ⟨tp, htpmem, htppid, htpact⟩ := htp
  have h1 : (tps.find? (fun tp => (tp.patient_id == pid) && tp.is_active)).isSome := by
    rw [List.find?_isSome]
    exact ⟨tp, htpmem, by simp [htppid, htpact]⟩
  have h2 : (pats.find? (fun p => p.id == pid)).isSome := by
    rw [List.find?_isSome]
    exact ⟨p, hpmem, by simp [hpid]⟩
  obtain ⟨tp1, htp1⟩ := Option.isSome_iff_exists.mp h1
  obtain ⟨p1, hp1⟩ := Option.isSome_iff_exists.mp h2
  simp [findAssignment, htp1, hp1]

/-- Witness for `create_risk_notification_spec` on concrete tables: a
critical-alert event with one active therapist creates one critical
notification; a low-alert event and a therapist-less store create none. -/
theorem create_risk_notification_spec_witness :
    (createRiskNotification 9 100 [tpActive] [patAlex] evHigh [] [evHigh]).1.length = 1 ∧
    createRiskNotification 9 100 [tpActive] [patAlex] evLowAlert [] [evLowAlert] =
      ([], [evLowAlert]) ∧
    createRiskNotification 9 100 [] [patAlex] evHigh [] [evHigh] = ([], [evHigh]) := by
  have h := create_risk_notification_spec [tpActive] [patAlex] evHigh [] [evHigh] 9 100
  refine ⟨?_, ?_, ?_⟩
  · obtain ⟨hn, -⟩ := h.1 (Or.inr rfl) 3 "Alex" rfl
    rw [hn]
    rfl
  · exact (create_risk_notification_spec [tpActive] [patAlex] evLowAlert []
      [evLowAlert] 9 100).2.1 (by decide) (by decide)
  · exact (create_risk_notification_spec [] [patAlex] evHigh [] [evHigh] 9 100).2.2 rfl

/-- C7, as stated, is false on the code: `skill_completions` declares no
CHECK constraint on `mood_before`/`mood_after` (the 0-10 range is only a
comment), so a row with `mood_before = 11` is accepted and persisted
as-is instead of being rejected by the store. -/
theorem skill_completion_out_of_range_accepted :
    insertSkillCompletion [] skillOutOfRange = some [skillOutOfRange] ∧
    skillOutOfRange.mood_before = some 11 ∧
    ¬ ((11 : Int) ≤ 10) := by
  refine ⟨rfl, rfl, by decide⟩

/-- C7 (amended): `mood_ratings.mood_score` is constrained by the store to
0-10 inclusive — an insert succeeds exactly when the score is in range,
and an accepted row is stored as given, never clamped — while
`skill_completions.mood_before`/`mood_after` carry no store-level range
constraint: every row is accepted and stored as given. -/
theorem mood_value_constraints (tbl : List MoodRatingRow) (r : MoodRatingRow)
    (tbl2 : List MoodRatingRow) (stbl : List SkillCompletionRow)
    (c : SkillCompletionRow) :
    ((insertMoodRating tbl r).isSome ↔ (0 ≤ r.mood_score ∧ r.mood_score ≤ 10)) ∧
    (insertMoodRating tbl r = some tbl2 → tbl2 = tbl ++ [r]) ∧
    insertSkillCompletion stbl c = some (stbl ++ [c]) := by
  refine ⟨?_, ?_, rfl⟩
  · constructor
    · intro h
      by_contra hc
      simp [insertMoodRating, hc] at h
    · intro h
      simp [insertMoodRating, h]
  · intro h
    by_cases hc : 0 ≤ r.mood_score ∧ r.mood_score ≤ 10
    · simpa [insertMoodRating, hc] using h.symm
    · simp [insertMoodRating, hc] at h

/-- Witness for `mood_value_constraints` on a concrete in-range rating and
skill completion. -/
theorem mood_value_constraints_witness :
    ((insertMoodRating [] moodSeven).isSome ↔
      (0 ≤ moodSeven.mood_score ∧ moodSeven.mood_score ≤ 10)) ∧
    (insertMoodRating [] moodSeven = some [moodSeven] →
      [moodSeven] = [] ++ [moodSeven]) ∧
    insertSkillCompletion [] skillOutOfRange = some ([] ++ [skillOutOfRange]) :=
  mood_value_constraints [] moodSeven [moodSeven] [] skillOutOfRange

/-- The session-ended flag after a successful turn: previously ended, or a
detected risk with resources at level high, or `should_end_session`. -/
theorem handleSendSuccess_sessionEnded (st : ChatState) (r : ChatResponse) :
    (handleSendSuccess st r).sessionEnded =
      (st.sessionEnded || (r.risk_detected && r.resources.isSome &&
        (r.risk_level == RiskLevel.high)) || r.should_end_session) := by
  unfold handleSendSuccess
  cases hse : r.should_end_session <;>
    cases hrd : r.risk_detected <;>
      cases hrs : r.resources.isSome <;>
        by_cases hrl : r.risk_level = RiskLevel.high <;>
          by_cases hsid : st.sessionId.isNone <;>
            simp_all

/-- C3, as stated, is false on the code: a response that carries risk
level high together with crisis resources, but whose `risk_detected` flag
is false, does not end the session — the chat page gates the crisis-
resources branch on `response.risk_detected` — and the message box is
still rendered. -/
theorem high_with_resources_but_undetected_keeps_session :
    (handleSendOk stFresh "1" "hi" respHighNoDetect).sessionEnded = false ∧
    renderInputArea (handleSendOk stFresh "1" "hi" respHighNoDetect) =
      InputArea.messageBox := by
  constructor <;> rfl

/-- C3 (amended): for every turn whose response carries
`should_end_session = true`, or `risk_detected` together with crisis
resources and risk level high, the chat page marks the session ended; once
`sessionEnded` is set it survives every later successful or failed turn,
and the input area renders the session-ended notice in place of the
message box, so no further user turns can be sent. -/
theorem chat_page_ends_session (st : ChatState) (mid um : String)
    (r : ChatResponse)
    (h : r.should_end_session = true ∨
      (r.risk_detected = true ∧ r.resources.isSome = true ∧
        r.risk_level = RiskLevel.high)) :
    (handleSendOk st mid um r).sessionEnded = true ∧
    (∀ st2 : ChatState, st2.sessionEnded = true →
      (∀ mid2 um2 : String, ∀ r2 : ChatResponse,
        (handleSendOk st2 mid2 um2 r2).sessionEnded = true) ∧
      (∀ mid2 um2 eid : String, ∀ em : Option String,
        (handleSendErr st2 mid2 um2 eid em).sessionEnded = true) ∧
      renderInputArea st2 = InputArea.endedNotice) := by
  constructor
  · rw [handleSendOk, handleSendSuccess_sessionEnded]
    rcases h with h | ⟨h1, h2, h3⟩
    · simp [h]
    · simp [h1, h2, h3, appendUserMsg]
  · intro st2 hend
    refine ⟨?_, ?_, ?_⟩
    · intro mid2 um2 r2
      rw [handleSendOk, handleSendSuccess_sessionEnded]
      simp [appendUserMsg, hend]
    · intro mid2 um2 eid em
      simpa [handleSendErr, handleSendError, appendUserMsg] using hend
    · simp [renderInputArea, hend]

/-- Witness for `chat_page_ends_session` on a concrete fresh state and a
detected high-risk response. -/
theorem chat_page_ends_session_witness :
    (handleSendOk stFresh "1" "hi" respHighDetected).sessionEnded = true ∧
    (∀ st2 : ChatState, st2.sessionEnded = true →
      (∀ mid2 um2 : String, ∀ r2 : ChatResponse,
        (handleSendOk st2 mid2 um2 r2).sessionEnded = true) ∧
      (∀ mid2 um2 eid : String, ∀ em : Option String,
        (handleSendErr st2 mid2 um2 eid em).sessionEnded = true) ∧
      renderInputArea st2 = InputArea.endedNotice) :=
  chat_page_ends_session stFresh "1" "hi" respHighDetected (Or.inl rfl)

/-- C8: a turn whose API call throws appends the generic apologetic
message and changes nothing else the claim names: the session id, the
session-ended flag, the crisis resources and banner, and the current
distress are exactly those before the turn. -/
theorem chat_error_path_preserves_state (st : ChatState)
    (mid um eid : String) (em : Option String) :
    (handleSendErr st mid um eid em).sessionId = st.sessionId ∧
    (handleSendErr st mid um eid em).sessionEnded = st.sessionEnded ∧
    (handleSendErr st mid um eid em).crisisResources = st.crisisResources ∧
    (handleSendErr st mid um eid em).showSupportBanner = st.showSupportBanner ∧
    (handleSendErr st mid um eid em).currentDistress = st.currentDistress ∧
    (handleSendErr st mid um eid em).messages =
      st.messages ++ [mkUserMsg mid um, mkErrorMsg eid em] ∧
    (mkErrorMsg eid em).content =
      "Sorry, there was an error: " ++ em.getD "Unknown error" ++
        ". Please try again." := by
  refine ⟨rfl, rfl, rfl, rfl, rfl, ?_, rfl⟩
  simp [handleSendErr, handleSendError, appendUserMsg]

/-- C6: the declared country of the patient never reaches the backend message
endpoint.  The chat page passes `country` as a fourth argument, but
`APIClient.sendMessage` declares three parameters and posts a body with
exactly `patient_access_code`, `message` and `session_id`; two sends that
differ only in the country produce identical request bodies. -/
theorem country_not_transmitted :
    (∀ (ac m : String) (sid : Option Nat) (c1 c2 : String),
      pageSendRequest ac m sid c1 = pageSendRequest ac m sid c2) ∧
    pageSendRequest "PATIENT001" "hello" Option.none "it" =
      { patient_access_code := "PATIENT001", message := "hello"
        session_id := Option.none } := by
  exact ⟨fun _ _ _ _ _ => rfl, rfl⟩

/-- C5: when the classifier call fails or times out (no classifier
verdict), the merged risk level for the turn is at least medium — never
none or low — whatever the keyword tier reported. -/
theorem classifier_failure_merged_at_least_medium (kw : RiskLevel) :
    RiskLevel.rank RiskLevel.medium ≤ RiskLevel.rank (mergeRiskLevel kw Option.none) ∧
    mergeRiskLevel kw Option.none ≠ RiskLevel.none ∧
    mergeRiskLevel kw Option.none ≠ RiskLevel.low := by
  cases kw <;> refine ⟨by decide, by decide, by decide⟩
